import Mathlib

/- Shallow embedding of the prow data pipeline: the batch orchestrator in
`src/prow/__init__.py` and the four acquisition operations in
`src/prow/download_data.py`.  External effects (HTTP via requests, shelled-out
curl/tar/rm, osmnx geocoding and way queries, the GPX converter and the
interpolator from the utils layer, and the analysis engine) are oracles
gathered in an `Env`.  Every effectful operation returns the resulting
filesystem, the trace of the effects it performed, in order, and its outcome
(`Except.error` models an uncaught Python exception). -/

/-- One GPS point record as produced by the GPX converter: latitude,
longitude and a track identifier, plus a possible extra GPX field standing
for the additional columns (elevation, time, ...) the converter may emit. -/
structure GpxRow where
  latitude : ℚ
  longitude : ℚ
  trackid : Int
  elevation : Option ℚ
deriving DecidableEq

/-- One row of the three columns kept by the public-GPS download path
(`df[["latitude", "longitude", "trackid"]]`). -/
structure CsvRow where
  latitude : ℚ
  longitude : ℚ
  trackid : Int
deriving DecidableEq

/-- A directed multigraph as returned by `ox.graph_from_polygon`. -/
structure MultiDiGraph where
  nodes : List Nat
  edges : List (Nat × Nat)
deriving DecidableEq

/-- An undirected multigraph (`networkx.MultiGraph`). -/
structure MultiGraph where
  nodes : List Nat
  edges : List (Nat × Nat)
deriving DecidableEq

/-- Embedding of `G.to_undirected()`: forget edge directions. -/
def MultiDiGraph.to_undirected (g : MultiDiGraph) : MultiGraph :=
  { nodes := g.nodes, edges := g.edges }

/-- Embedding of `nx.MultiGraph()`: the empty undirected multigraph substituted for an
empty OSM query result. -/
def empty_multigraph : MultiGraph := { nodes := [], edges := [] }

/-- A geometry (`shapely` polygon / multipolygon), abstracted to an
identifier: the pipeline only passes geometries between oracles. -/
abbrev Geom := Nat

/-- The value of a `requests.get` call that returned (a non-success HTTP
status does not raise in `requests`; only connection-level failures do). -/
structure HttpResponse where
  status : Nat
  content : String
deriving DecidableEq

/-- The two kinds of exception an `ox.graph_from_polygon` call can raise:
a `ValueError` (in particular the "no matching ways in this polygon" case,
per the spec an expected outcome for sparse tiles) or anything else. -/
inductive OsmErr
  | valueError
  | otherError
deriving DecidableEq

/-- Uncaught Python exceptions, by origin. -/
inductive Err
  | netFailure
  | invalidGpx
  | interpFailure
  | concatFailure
  | geocodeFailure
  | osmFailure
  | notFound (name : String)
deriving DecidableEq

/-- Contents of an on-disk artifact. -/
inductive FileData
  | bytes (b : String)
  | gpxTable (rows : List GpxRow)
  | csvTable (rows : List CsvRow)
  | archiveFile (tag : String)
  | graphml (g : MultiGraph)
deriving DecidableEq

/-- The filesystem: an association of paths to contents; a fresh write
shadows older entries for the same path. -/
abbrev FS := List (String × FileData)

def fsRead (fs : FS) (p : String) : Option FileData := fs.lookup p

def isfile (fs : FS) (p : String) : Bool := (fsRead fs p).isSome

def fsWrite (fs : FS) (p : String) (d : FileData) : FS := (p, d) :: fs

def fsRemove (fs : FS) (p : String) : FS := fs.filter (fun kv => kv.fst != p)

/-- One observable effect of the pipeline, in program order. -/
inductive Event
  | print (msg : String)
  | echo (msg : String)
  | httpGet (url : String) (params : List (String × String))
      (headers : List (String × String))
  | curl (url : String) (dest : String)
  | tarExtract (src : String) (destDir : String)
  | rmFile (path : String)
  | writeFile (path : String)
  | geocodeCall (names : List String) (buffer_dist : ℚ)
  | osmQuery (custom_filter : String) (retain_all : Bool) (simplify : Bool)
  | saveGraphml (path : String) (g : MultiGraph)
  | checkExistsCall (path : String) (result : Bool)
  | analyseCall (row_data : String) (public_data : String)
      (graph_data : String) (out_fn : String)
deriving DecidableEq

/-- Events that perform network I/O: the requests GET, the shelled-out curl
download, the geocoding query and the OSM way query. -/
def Event.isNetwork : Event → Bool
  | Event.httpGet _ _ _ => true
  | Event.curl _ _ => true
  | Event.geocodeCall _ _ => true
  | Event.osmQuery _ _ _ => true
  | _ => false

def network_events (tr : List Event) : List Event := tr.filter Event.isNetwork

def Event.isHttpGet : Event → Bool
  | Event.httpGet _ _ _ => true
  | _ => false

/-- Oracles for every external dependency of the two source files, plus the
data and constants of the utils layer (which is not part of the inspected
source): the GPX converter's raw parse, the interpolator, the authority
name-to-code table, and the two distance constants. -/
structure Env where
  requests_get : String → List (String × String) → List (String × String) →
      Except Unit HttpResponse
  gpx_parse : String → Except Unit (List GpxRow)
  batch_geo_interpolate_df : List GpxRow → ℚ → Bool → Except Unit (List GpxRow)
  rglob_gpx : String → List (String × String)
  geocode_to_gdf : List String → ℚ → Except Unit (List Geom)
  unary_union : List Geom → Geom
  quadrat_cut : Geom → ℚ → List Geom
  graph_from_polygon : Geom → String → Bool → Bool → Except OsmErr MultiDiGraph
  check_analysis_exists : String → Bool
  authority_table : List (String × String)
  interpolation_dist_row_gps : ℚ
  split_polygon_box_length : ℚ
  metres_to_dist : ℚ → ℚ

/-- Embedding of `os.path.dirname`. -/
def dirname (p : String) : String :=
  String.intercalate "/" ((p.splitOn "/").dropLast)

def rowmaps_url : String := "https://www.rowmaps.com/getgpx.php"

def row_headers : List (String × String) :=
  [("User-Agent",
    "Mozilla/5.0 (Macintosh; Intel Mac OS X 10.12; rv:55.0) Gecko/20100101 Firefox/55.0")]

/-- The tail of `download_row_data` once `requests.get` has returned a
response: write the body to `fn + ".gpx"`, re-read that file, parse it as
GPX, interpolate with segmentation disabled, and only then write the CSV.
The HTTP status of the response is never consulted. -/
def download_row_data_after_get (env : Env) (fn : String) (fs : FS)
    (resp : HttpResponse) : FS × List Event × Except Err Unit :=
  let gpx_fn := fn ++ ".gpx"
  let csv_fn := fn ++ ".csv"
  let fs1 := fsWrite fs gpx_fn (FileData.bytes resp.content)
  let tr1 := [Event.writeFile gpx_fn, Event.print "Converting..."]
  match fsRead fs1 gpx_fn with
  | some (FileData.bytes b) =>
    match env.gpx_parse b with
    | Except.error _ => (fs1, tr1, Except.error Err.invalidGpx)
    | Except.ok row_raw_df =>
      let tr2 := tr1 ++ [Event.print "Interpolating..."]
      match env.batch_geo_interpolate_df row_raw_df
          env.interpolation_dist_row_gps false with
      | Except.error _ => (fs1, tr2, Except.error Err.interpFailure)
      | Except.ok row_df =>
        (fsWrite fs1 csv_fn (FileData.gpxTable row_df),
         tr2 ++ [Event.print "Done", Event.writeFile csv_fn],
         Except.ok ())
  | _ => (fs1, tr1, Except.error Err.invalidGpx)

/-- Embedding of `download_data.download_row_data`: skip if `fn + ".csv"` exists, else GET
the RoW GPX from rowmaps, write it, parse it, interpolate, write the CSV. -/
def download_row_data (env : Env) (authority_code : String) (fn : String)
    (fs : FS) : FS × List Event × Except Err Unit :=
  let csv_fn := fn ++ ".csv"
  if isfile fs csv_fn then
    (fs, [Event.print ("RoW data found at " ++ csv_fn)], Except.ok ())
  else
    let params := [("l", authority_code), ("w", "no")]
    let tr0 := [Event.print ("Downloading to " ++ csv_fn ++ "..."),
                Event.print ("Downloading RoW data for " ++ authority_code),
                Event.httpGet rowmaps_url params row_headers]
    match env.requests_get rowmaps_url params row_headers with
    | Except.error _ => (fs, tr0, Except.error Err.netFailure)
    | Except.ok resp =>
      let res := download_row_data_after_get env fn fs resp
      (res.1, tr0 ++ res.2.1, res.2.2)

def public_base_url : String :=
  "http://zverik.openstreetmap.ru/gps/files/extracts/europe/great_britain/"

/-- The extraction directory the public-GPS path enumerates, hard-coded in
the source independently of the caller-supplied output prefix. -/
def public_gpx_dir : String := "data/public/gpx-planet-2013-04-09"

/-- Modelled from the spec: the GPX converter's `gpx_to_dataframe(i=...)`
(utils layer, not in the inspected source) parses the file into point
records and offsets each record's track identifier by the caller-supplied
base, so tracks from different files stay distinct after concatenation. -/
def gpx_to_dataframe (env : Env) (content : String) (i : Int) :
    Except Err (List GpxRow) :=
  match env.gpx_parse content with
  | Except.error _ => Except.error Err.invalidGpx
  | Except.ok rows =>
    Except.ok (rows.map (fun r => { r with trackid := r.trackid + i }))

/-- Embedding of `df[["latitude", "longitude", "trackid"]]`. -/
def select_columns (r : GpxRow) : CsvRow :=
  { latitude := r.latitude, longitude := r.longitude, trackid := r.trackid }

/-- Embedding of the source's
`df.loc[(df[["latitude", "longitude"]] != 0).all(axis=1), :]`: keep the
rows whose latitude and longitude are both non-zero. -/
def zero_filter (rows : List CsvRow) : List CsvRow :=
  rows.filter (fun r => decide (r.latitude ≠ 0) && decide (r.longitude ≠ 0))

/-- The conversion loop of `download_public_gps_data`: for the file at
enumeration index `idx`, convert with track offset `idx`, keep the three
columns, filter zero coordinates; a converter exception aborts the loop. -/
def convert_frames (env : Env) : Nat → List (String × String) →
    Except Err (List (List CsvRow))
  | _, [] => Except.ok []
  | idx, (_, content) :: rest =>
    match gpx_to_dataframe env content (Int.ofNat idx) with
    | Except.error e => Except.error e
    | Except.ok df =>
      match convert_frames env (idx + 1) rest with
      | Except.error e => Except.error e
      | Except.ok frames =>
        Except.ok (zero_filter (df.map select_columns) :: frames)

/-- The table the public-GPS path writes: the concatenation, in file
enumeration order, of the converted frames of every GPX file found under the
fixed extraction directory.  `pd.concat` of an empty frame list raises. -/
def public_gps_table (env : Env) : Except Err (List CsvRow) :=
  match convert_frames env 0 (env.rglob_gpx public_gpx_dir) with
  | Except.error e => Except.error e
  | Except.ok [] => Except.error Err.concatFailure
  | Except.ok frames => Except.ok frames.flatten

/-- Embedding of `download_data.download_public_gps_data`: skip if `fn + ".csv"` exists,
else curl the region archive, extract it next to `fn`, delete it, convert
every GPX file under the fixed extraction directory, and write the
concatenated table to `fn + ".csv"`. -/
def download_public_gps_data (env : Env) (region : String) (fn : String)
    (fs : FS) : FS × List Event × Except Err Unit :=
  let csv_fn := fn ++ ".csv"
  if isfile fs csv_fn then
    (fs, [Event.print ("Public GPS data found at " ++ csv_fn)], Except.ok ())
  else
    let url := public_base_url ++ region ++ ".tar.xz"
    let tar_fn := fn ++ ".tar.xz"
    let fs1 := fsRemove (fsWrite fs tar_fn (FileData.archiveFile region)) tar_fn
    let tr0 := [Event.print ("Downloading to " ++ csv_fn ++ "..."),
                Event.echo "Starting download...",
                Event.curl url tar_fn,
                Event.echo "Unzipping...",
                Event.tarExtract tar_fn (dirname fn),
                Event.echo "Deleting archive",
                Event.rmFile tar_fn,
                Event.print "Converting..."]
    match public_gps_table env with
    | Except.error e => (fs1, tr0, Except.error e)
    | Except.ok t =>
      (fsWrite fs1 csv_fn (FileData.csvTable t),
       tr0 ++ [Event.writeFile csv_fn, Event.print "Done"],
       Except.ok ())

/-- Embedding of `download_data.get_graph_boundary`: wrap the single authority name in a
list, geocode it with a 10-unit buffer, pick the merged geometry only when
the wrapped name list (not the geocoded result) has more than one element,
and cut the chosen geometry into square tiles.  Touches no files. -/
def get_graph_boundary (env : Env) (authority : String) :
    List Event × Except Err (List Geom) :=
  let authority_list := [authority]
  match env.geocode_to_gdf authority_list 10 with
  | Except.error _ =>
    ([Event.geocodeCall authority_list 10], Except.error Err.geocodeFailure)
  | Except.ok gdf =>
    let geom := if authority_list.length > 1 then env.unary_union gdf
                else gdf.headI
    let split_geom :=
      env.quadrat_cut geom (env.metres_to_dist env.split_polygon_box_length)
    ([Event.geocodeCall authority_list 10], Except.ok split_geom)

/-- Follows the spec's words, for comparison with the source: merge all
geocoded geometries into one combined shape whenever the geocoding yields
more than one feature, and tile the union. -/
def get_graph_boundary_spec_merge (env : Env) (authority : String) :
    List Event × Except Err (List Geom) :=
  match env.geocode_to_gdf [authority] 10 with
  | Except.error _ =>
    ([Event.geocodeCall [authority] 10], Except.error Err.geocodeFailure)
  | Except.ok gdf =>
    let geom := if gdf.length > 1 then env.unary_union gdf else gdf.headI
    let split_geom :=
      env.quadrat_cut geom (env.metres_to_dist env.split_polygon_box_length)
    ([Event.geocodeCall [authority] 10], Except.ok split_geom)

def highway_filter : String :=
  "[\"highway\"~\"footway|cycleway|bridleway|path|track\"]"

def graphml_path (fn : String) (i : Nat) : String :=
  fn ++ "_" ++ toString i ++ ".graphml"

/-- The per-tile loop of `download_graphs`: skip a tile whose graphml file
exists; otherwise query OSM, substituting the empty undirected multigraph
when the query raises a `ValueError`, and save the graph; any other query
exception propagates. -/
def download_graphs_go (env : Env) (fn : String) :
    Nat → List Geom → FS → FS × List Event × Except Err Unit
  | _, [], fs => (fs, [], Except.ok ())
  | i, geom :: rest, fs =>
    if isfile fs (graphml_path fn i) then
      let res := download_graphs_go env fn (i + 1) rest fs
      (res.1,
       Event.print ("Graph found for " ++ toString i ++ "th geometry, continuing")
         :: res.2.1,
       res.2.2)
    else
      match env.graph_from_polygon geom highway_filter true false with
      | Except.error OsmErr.valueError =>
        let fs1 := fsWrite fs (graphml_path fn i)
            (FileData.graphml empty_multigraph)
        let res := download_graphs_go env fn (i + 1) rest fs1
        (res.1,
         Event.osmQuery highway_filter true false
           :: Event.saveGraphml (graphml_path fn i) empty_multigraph
           :: res.2.1,
         res.2.2)
      | Except.error OsmErr.otherError =>
        (fs, [Event.osmQuery highway_filter true false],
         Except.error Err.osmFailure)
      | Except.ok g =>
        let ug := g.to_undirected
        let fs1 := fsWrite fs (graphml_path fn i) (FileData.graphml ug)
        let res := download_graphs_go env fn (i + 1) rest fs1
        (res.1,
         Event.osmQuery highway_filter true false
           :: Event.saveGraphml (graphml_path fn i) ug
           :: res.2.1,
         res.2.2)

/-- Embedding of `download_data.download_graphs`. -/
def download_graphs (env : Env) (graph_boundary : List Geom) (fn : String)
    (fs : FS) : FS × List Event × Except Err Unit :=
  let res := download_graphs_go env fn 0 graph_boundary fs
  match res.2.2 with
  | Except.ok _ =>
    (res.1, Event.print "Downloading..." :: res.2.1 ++ [Event.print "Done"],
     Except.ok ())
  | Except.error e =>
    (res.1, Event.print "Downloading..." :: res.2.1, Except.error e)

/-- The characters of a string up to (excluding) the first occurrence of the
separator. -/
def take_until_sep : List Char → List Char → List Char
  | [], _ => []
  | c :: cs, sep =>
    if sep.isPrefixOf (c :: cs) then [] else c :: take_until_sep cs sep

/-- Python's `s.split(sep)[0]`: the part of `s` before the first occurrence
of `sep`, or all of `s` when `sep` does not occur. -/
def py_split_head (s sep : String) : String :=
  String.mk (take_until_sep s.data sep.data)

/-- Modelled from the spec: `utils.authority_names.reverse_search` (utils
layer, not in the inspected source) looks the name up in a static
name-to-code table and raises NotFound when the name has no entry. -/
def reverse_search (table : List (String × String)) (name : String) :
    Except Err String :=
  match table.lookup name with
  | some code => Except.ok code
  | none => Except.error (Err.notFound name)

/-- One iteration of the orchestrator's loop in
`batch_prow_analyse_authorities`: resolve the code from the leading
comma-separated segment of the authority name, derive the four prefixes,
skip the entry when the analysis engine reports existing output, otherwise
run the four acquisition steps and the analysis, each failure propagating. -/
def process_entry (env : Env) (fn_data_root : String) (fn_out_root : String)
    (authority : String) (region : String) (fs : FS) :
    FS × List Event × Except Err Unit :=
  match reverse_search env.authority_table (py_split_head authority ", ") with
  | Except.error e => (fs, [], Except.error e)
  | Except.ok authority_code =>
    let fn_row := fn_data_root ++ "/row/" ++ authority_code
    let fn_public := fn_data_root ++ "/public/" ++ region
    let fn_graph := fn_data_root ++ "/osmnx/" ++ authority_code
    let fn_out := fn_out_root ++ "/" ++ authority_code
    let header := Event.print ("Analysis for authority '" ++ authority ++
      "' code '" ++ authority_code ++ "' in region '" ++ region ++
      "'. Output to " ++ fn_out)
    if env.check_analysis_exists fn_out then
      (fs, [header, Event.checkExistsCall fn_out true], Except.ok ())
    else
      let tr0 := [header, Event.checkExistsCall fn_out false,
                  Event.print "1. Download RoW data"]
      match download_row_data env authority_code fn_row fs with
      | (fs1, tr1, Except.error e) => (fs1, tr0 ++ tr1, Except.error e)
      | (fs1, tr1, Except.ok _) =>
        let tr2h := [Event.print "2. Download public GPS data"]
        match download_public_gps_data env region fn_public fs1 with
        | (fs2, tr2, Except.error e) =>
          (fs2, tr0 ++ tr1 ++ tr2h ++ tr2, Except.error e)
        | (fs2, tr2, Except.ok _) =>
          let tr3h := [Event.print "3. Get graph boundaries"]
          match get_graph_boundary env authority with
          | (tr3, Except.error e) =>
            (fs2, tr0 ++ tr1 ++ tr2h ++ tr2 ++ tr3h ++ tr3, Except.error e)
          | (tr3, Except.ok graph_boundary) =>
            let tr4h := [Event.print "4. Download graphs"]
            match download_graphs env graph_boundary fn_graph fs2 with
            | (fs4, tr4, Except.error e) =>
              (fs4, tr0 ++ tr1 ++ tr2h ++ tr2 ++ tr3h ++ tr3 ++ tr4h ++ tr4,
               Except.error e)
            | (fs4, tr4, Except.ok _) =>
              (fs4,
               tr0 ++ tr1 ++ tr2h ++ tr2 ++ tr3h ++ tr3 ++ tr4h ++ tr4 ++
                 [Event.print "5. Perform analysis",
                  Event.analyseCall fn_row fn_public fn_graph fn_out],
               Except.ok ())

/-- Embedding of `batch_prow_analyse_authorities`: process the entries strictly in list
order; the first propagated failure halts the remainder of the batch. -/
def batch_prow_analyse_authorities (env : Env)
    (authorities : List (String × String)) (fn_data_root : String)
    (fn_out_root : String) (fs : FS) : FS × List Event × Except Err Unit :=
  match authorities with
  | [] => (fs, [], Except.ok ())
  | (authority, region) :: rest =>
    match process_entry env fn_data_root fn_out_root authority region fs with
    | (fs1, tr1, Except.error e) => (fs1, tr1, Except.error e)
    | (fs1, tr1, Except.ok _) =>
      let res := batch_prow_analyse_authorities env rest fn_data_root
          fn_out_root fs1
      (res.1, tr1 ++ res.2.1, res.2.2)

/-- A baseline oracle environment in which every external call succeeds. -/
def env0 : Env where
  requests_get := fun _ _ _ => Except.ok { status := 200, content := "gpx" }
  gpx_parse := fun _ =>
    Except.ok [{ latitude := 1, longitude := 2, trackid := 0, elevation := none }]
  batch_geo_interpolate_df := fun rows _ _ => Except.ok rows
  rglob_gpx := fun _ => [("a.gpx", "gpx")]
  geocode_to_gdf := fun _ _ => Except.ok [7]
  unary_union := fun l => l.foldl (· + ·) 0
  quadrat_cut := fun g _ => [g]
  graph_from_polygon := fun _ _ _ _ => Except.ok { nodes := [], edges := [] }
  check_analysis_exists := fun _ => false
  authority_table := [("Derbyshire", "DY")]
  interpolation_dist_row_gps := 20
  split_polygon_box_length := 2000
  metres_to_dist := fun m => m / 111111

/-- Environment whose single public GPX file holds one record at
latitude 0, longitude 5. -/
def envC2 : Env :=
  { env0 with
    rglob_gpx := fun _ => [("f.gpx", "raw")]
    gpx_parse := fun _ =>
      Except.ok [{ latitude := 0, longitude := 5, trackid := 1,
                   elevation := none }] }

/-- Environment whose RoW provider answers with HTTP status 404 and a body
that the converter accepts. -/
def envC3 : Env :=
  { env0 with
    requests_get := fun _ _ _ =>
      Except.ok { status := 404, content := "errorpage" } }

/-- Environment whose geocoder resolves one name to two features. -/
def envC4 : Env :=
  { env0 with geocode_to_gdf := fun _ _ => Except.ok [1, 2] }

/-- Environment whose analysis engine reports existing output for every
prefix. -/
def env5 : Env :=
  { env0 with check_analysis_exists := fun _ => true }

/-- Environment whose OSM way query raises a ValueError on every tile. -/
def env6 : Env :=
  { env0 with graph_from_polygon := fun _ _ _ _ =>
      Except.error OsmErr.valueError }

/-- Environment whose GPX converter rejects every input. -/
def env9 : Env :=
  { env0 with gpx_parse := fun _ => Except.error () }

/-- Environment with an empty authority table and an analysis engine that
reports existing output for every prefix. -/
def env10 : Env :=
  { env0 with
    authority_table := []
    check_analysis_exists := fun _ => true }

/-- A filesystem already holding the RoW CSV, the public-GPS CSV and two
tile graphs for the prefixes used by the idempotency witnesses. -/
def fsW : FS :=
  [("data/row/DY.csv", FileData.gpxTable []),
   ("data/public/derbyshire.csv", FileData.csvTable []),
   ("data/osmnx/DY_0.graphml", FileData.graphml empty_multigraph),
   ("data/osmnx/DY_1.graphml", FileData.graphml empty_multigraph)]

theorem fsRead_fsWrite_same (fs : FS) (p : String) (d : FileData) :
    fsRead (fsWrite fs p d) p = some d := by
  simp [fsRead, fsWrite, List.lookup]

theorem fsRead_fsWrite_ne (fs : FS) (p q : String) (d : FileData)
    (h : p ≠ q) : fsRead (fsWrite fs q d) p = fsRead fs p := by
  simp [fsRead, fsWrite, List.lookup, beq_eq_false_iff_ne.mpr h]

theorem isfile_fsWrite_ne (fs : FS) (p q : String) (d : FileData)
    (h : p ≠ q) : isfile (fsWrite fs q d) p = isfile fs p := by
  simp [isfile, fsRead_fsWrite_ne fs p q d h]

theorem string_append_ne (a : String) {s t : String} (h : s ≠ t) :
    a ++ s ≠ a ++ t := by
  intro he
  apply h
  have hd := congrArg String.data he
  simp [String.data_append] at hd
  exact String.ext hd

theorem csv_ne_gpx (fn : String) : fn ++ ".csv" ≠ fn ++ ".gpx" :=
  string_append_ne fn (by decide)

/-- If every tile's graphml file already exists, the graph-download loop
changes nothing, performs no network I/O and succeeds. -/
theorem download_graphs_go_all_skip (env : Env) (fn : String) :
    ∀ (tiles : List Geom) (i : Nat) (fs : FS),
    (∀ j, j < tiles.length → isfile fs (graphml_path fn (i + j)) = true) →
    ∃ tr, download_graphs_go env fn i tiles fs = (fs, tr, Except.ok ()) ∧
      network_events tr = []
  | [], _, _, _ => ⟨[], rfl, rfl⟩
  | geom :: rest, i, fs, h => by
    have h0 : isfile fs (graphml_path fn i) = true := by
      simpa using h 0 (by simp)
    obtain ⟨tr, htr, hnet⟩ := download_graphs_go_all_skip env fn rest (i + 1) fs
      (fun j hj => by
        have := h (j + 1) (by simpa using Nat.succ_lt_succ hj)
        simpa [Nat.add_assoc, Nat.add_comm 1 j] using this)
    refine ⟨Event.print ("Graph found for " ++ toString i ++
      "th geometry, continuing") :: tr, ?_, ?_⟩
    · simp [download_graphs_go, h0, htr]
    · simpa [network_events, Event.isNetwork] using hnet

/-- C1 counterexample: the claim covers boundary computation among the
acquisition operations, but `get_graph_boundary` keeps no target file,
checks no file existence (it does not even take the filesystem as input),
and performs a geocoding network call on every invocation — here shown at a
concrete environment and authority. -/
theorem C1_boundary_always_networks :
    network_events (get_graph_boundary env0 "Derbyshire").1 =
      [Event.geocodeCall ["Derbyshire"] 10] ∧
    Event.isNetwork (Event.geocodeCall ["Derbyshire"] 10) = true := ⟨rfl, rfl⟩

/-- C1 amended: for the three file-producing acquisition operations
(`download_row_data`, `download_public_gps_data`, `download_graphs`), when
every target file already exists, the operation performs no network I/O,
re-does no conversion, and returns the filesystem unchanged; file existence
is the sole condition checked (the environment is arbitrary).  Boundary
computation has no target file and always geocodes. -/
theorem C1_idempotent_skip (env : Env) (code region fnr fnp fng : String)
    (tiles : List Geom) (fs : FS)
    (h1 : isfile fs (fnr ++ ".csv") = true)
    (h2 : isfile fs (fnp ++ ".csv") = true)
    (h3 : ∀ j, j < tiles.length → isfile fs (graphml_path fng j) = true) :
    download_row_data env code fnr fs =
      (fs, [Event.print ("RoW data found at " ++ (fnr ++ ".csv"))],
       Except.ok ()) ∧
    download_public_gps_data env region fnp fs =
      (fs, [Event.print ("Public GPS data found at " ++ (fnp ++ ".csv"))],
       Except.ok ()) ∧
    ∃ tr, download_graphs env tiles fng fs = (fs, tr, Except.ok ()) ∧
      network_events tr = [] := by
  refine ⟨by simp [download_row_data, h1], by simp [download_public_gps_data, h2], ?_⟩
  obtain ⟨tr, htr, hnet⟩ := download_graphs_go_all_skip env fng tiles 0 fs
    (fun j hj => by simpa using h3 j hj)
  refine ⟨Event.print "Downloading..." :: tr ++ [Event.print "Done"], ?_, ?_⟩
  · simp [download_graphs, htr]
  · simp only [network_events, List.filter_cons, List.filter_append] at hnet ⊢
    simp [Event.isNetwork, hnet]

/-- C1 witness: the three skips at a filesystem already holding the RoW CSV,
the public CSV and both tile graphs. -/
theorem C1_idempotent_skip_witness :
    download_row_data env0 "DY" "data/row/DY" fsW =
      (fsW, [Event.print ("RoW data found at " ++ ("data/row/DY" ++ ".csv"))],
       Except.ok ()) ∧
    download_public_gps_data env0 "derbyshire" "data/public/derbyshire" fsW =
      (fsW, [Event.print ("Public GPS data found at " ++
        ("data/public/derbyshire" ++ ".csv"))], Except.ok ()) ∧
    ∃ tr, download_graphs env0 [5, 6] "data/osmnx/DY" fsW =
      (fsW, tr, Except.ok ()) ∧ network_events tr = [] :=
  C1_idempotent_skip env0 "DY" "derbyshire" "data/row/DY"
    "data/public/derbyshire" "data/osmnx/DY" [5, 6] fsW (by decide) (by decide)
    (by decide)

/-- C2 counterexample: a record with latitude 0 and longitude 5 has a
non-zero coordinate, yet the public-GPS post-conversion filter removes it —
both on the filter itself and through the whole conversion pipeline of
`download_public_gps_data`. -/
theorem C2_single_zero_dropped :
    zero_filter [{ latitude := 0, longitude := 5, trackid := 1 }] = [] ∧
    public_gps_table envC2 = Except.ok [] ∧
    envC2.gpx_parse "raw" =
      Except.ok [{ latitude := 0, longitude := 5, trackid := 1,
                   elevation := none }] ∧
    (5 : ℚ) ≠ 0 := ⟨rfl, rfl, rfl, by norm_num⟩

/-- C2 amended: the post-conversion filter keeps, in order, exactly the
records whose latitude and longitude are both non-zero; it removes every
record with latitude = 0 or longitude = 0 (not only the both-zero ones). -/
theorem C2_zero_filter_semantics (rows : List CsvRow) :
    (zero_filter rows).Sublist rows ∧
    ∀ r : CsvRow, r ∈ zero_filter rows ↔
      r ∈ rows ∧ r.latitude ≠ 0 ∧ r.longitude ≠ 0 := by
  refine ⟨List.filter_sublist _, fun r => ?_⟩
  simp [zero_filter, List.mem_filter]

/-- C3 counterexample: with the RoW provider answering HTTP 404 and a body
the converter accepts, `download_row_data` does not abort: it writes the
response body to the `.gpx` file, parses and interpolates it, writes the
`.csv`, and returns success. -/
theorem C3_status_ignored :
    (download_row_data envC3 "DY" "p" []).2.2 = Except.ok () ∧
    fsRead (download_row_data envC3 "DY" "p" []).1 "p.gpx" =
      some (FileData.bytes "errorpage") ∧
    fsRead (download_row_data envC3 "DY" "p" []).1 "p.csv" =
      some (FileData.gpxTable
        [{ latitude := 1, longitude := 2, trackid := 0, elevation := none }]) ∧
    envC3.requests_get rowmaps_url [("l", "DY"), ("w", "no")] row_headers =
      Except.ok { status := 404, content := "errorpage" } :=
  ⟨rfl, rfl, rfl, rfl⟩

/-- The continuation of `download_row_data` after the GET issues no further
HTTP request. -/
theorem after_get_no_httpGet (env : Env) (fn : String) (fs : FS)
    (resp : HttpResponse) :
    ((download_row_data_after_get env fn fs resp).2.1).countP
      Event.isHttpGet = 0 := by
  unfold download_row_data_after_get
  rcases hp : env.gpx_parse resp.content with e | rows
  · simp [fsRead_fsWrite_same, hp, Event.isHttpGet]
  · rcases hi : env.batch_geo_interpolate_df rows
        env.interpolation_dist_row_gps false with e | rows'
    · simp [fsRead_fsWrite_same, hp, hi, Event.isHttpGet]
    · simp [fsRead_fsWrite_same, hp, hi, Event.isHttpGet]

theorem gpx_ne_csv (fn : String) : fn ++ ".gpx" ≠ fn ++ ".csv" :=
  string_append_ne fn (by decide)

/-- C3 amended: `download_row_data` never inspects the HTTP status: the
continuation after the GET behaves identically for any two responses with
the same body, at most one HTTP request is issued per invocation (no retry),
and whenever the GET returns a response, its body — whatever the status —
is written to `fn + ".gpx"` and handed to the GPX parser; the run aborts
only on connection, parse or interpolation failure. -/
theorem C3_no_status_check :
    (∀ (env : Env) (fn : String) (fs : FS) (s s' : Nat) (c : String),
      download_row_data_after_get env fn fs { status := s, content := c } =
        download_row_data_after_get env fn fs { status := s', content := c }) ∧
    (∀ (env : Env) (code fn : String) (fs : FS),
      ((download_row_data env code fn fs).2.1).countP Event.isHttpGet ≤ 1) ∧
    (∀ (env : Env) (code fn : String) (fs : FS) (resp : HttpResponse),
      env.requests_get rowmaps_url [("l", code), ("w", "no")] row_headers =
        Except.ok resp →
      isfile fs (fn ++ ".csv") = false →
      fsRead (download_row_data env code fn fs).1 (fn ++ ".gpx") =
        some (FileData.bytes resp.content)) := by
  refine ⟨fun env fn fs s s' c => rfl, ?_, ?_⟩
  · intro env code fn fs
    cases hf : isfile fs (fn ++ ".csv")
    · rcases hg : env.requests_get rowmaps_url [("l", code), ("w", "no")]
          row_headers with e | resp
      · simp [download_row_data, hf, hg, Event.isHttpGet]
      · simp [download_row_data, hf, hg, List.countP_append,
          after_get_no_httpGet, Event.isHttpGet]
    · simp [download_row_data, hf, Event.isHttpGet]
  · intro env code fn fs resp hok hcsv
    rcases hp : env.gpx_parse resp.content with e | rows
    · simp [download_row_data, download_row_data_after_get, hcsv, hok, hp,
        fsRead_fsWrite_same]
    · rcases hi : env.batch_geo_interpolate_df rows
          env.interpolation_dist_row_gps false with e | rows'
      · simp [download_row_data, download_row_data_after_get, hcsv, hok, hp,
          hi, fsRead_fsWrite_same]
      · have hrw := fsRead_fsWrite_ne
          (fsWrite fs (fn ++ ".gpx") (FileData.bytes resp.content))
          (fn ++ ".gpx") (fn ++ ".csv") (FileData.gpxTable rows')
          (gpx_ne_csv fn)
        simp [download_row_data, download_row_data_after_get, hcsv, hok, hp,
          hi, fsRead_fsWrite_same, hrw]

/-- C3 witness: the amended statement at a concrete environment. -/
theorem C3_no_status_check_witness :
    download_row_data_after_get env0 "p" [] { status := 404, content := "c" } =
      download_row_data_after_get env0 "p" [] { status := 200, content := "c" } ∧
    ((download_row_data env0 "DY" "p" []).2.1).countP Event.isHttpGet ≤ 1 ∧
    fsRead (download_row_data env0 "DY" "p" []).1 ("p" ++ ".gpx") =
      some (FileData.bytes "gpx") := by
  obtain ⟨a, b, c⟩ := C3_no_status_check
  exact ⟨a env0 "p" [] 404 200 "c", b env0 "DY" "p" [],
    c env0 "DY" "p" [] { status := 200, content := "gpx" } rfl rfl⟩

/-- C4 counterexample: when one name geocodes to two features,
`get_graph_boundary` tiles only the first feature (here geometry 1), not the
merged shape the spec describes (here geometry 3 = union of 1 and 2): the
merge guard tests the length of the singleton-wrapped name list, never the
number of geocoded features. -/
theorem C4_first_feature_only :
    (get_graph_boundary envC4 "Ambiguous").2 = Except.ok [1] ∧
    (get_graph_boundary_spec_merge envC4 "Ambiguous").2 = Except.ok [3] ∧
    envC4.geocode_to_gdf ["Ambiguous"] 10 = Except.ok [1, 2] ∧
    ([1] : List Geom) ≠ [3] := ⟨rfl, rfl, rfl, by decide⟩

/-- C4 amended: the merge branch is dead code — the guard compares the
length of the always-singleton wrapped name list, so for every environment
and authority the geometry handed to the tiling step is the first geocoded
feature, regardless of how many features the geocoder returned. -/
theorem C4_always_first_feature (env : Env) (authority : String)
    (gdf : List Geom)
    (h : env.geocode_to_gdf [authority] 10 = Except.ok gdf) :
    get_graph_boundary env authority =
      ([Event.geocodeCall [authority] 10],
       Except.ok (env.quadrat_cut gdf.headI
         (env.metres_to_dist env.split_polygon_box_length))) := by
  simp [get_graph_boundary, h]

/-- C4 witness: the amended statement at a concrete environment. -/
theorem C4_always_first_feature_witness :
    get_graph_boundary env0 "Derbyshire" =
      ([Event.geocodeCall ["Derbyshire"] 10], Except.ok [7]) :=
  C4_always_first_feature env0 "Derbyshire" [7] rfl

/-- C6: whenever the per-tile loop of `download_graphs` reaches a tile whose
graphml file is absent and whose OSM way query raises a ValueError (the
no-matching-ways outcome), it persists the empty undirected multigraph to
that tile's `{fn}_{i}.graphml` and continues with the remaining tiles
instead of aborting or omitting the file. -/
theorem C6_empty_tile (env : Env) (fn : String) (i : Nat) (geom : Geom)
    (rest : List Geom) (fs : FS)
    (hfile : isfile fs (graphml_path fn i) = false)
    (hq : env.graph_from_polygon geom highway_filter true false =
      Except.error OsmErr.valueError) :
    download_graphs_go env fn i (geom :: rest) fs =
      ((download_graphs_go env fn (i + 1) rest
          (fsWrite fs (graphml_path fn i)
            (FileData.graphml empty_multigraph))).1,
       Event.osmQuery highway_filter true false
         :: Event.saveGraphml (graphml_path fn i) empty_multigraph
         :: (download_graphs_go env fn (i + 1) rest
            (fsWrite fs (graphml_path fn i)
              (FileData.graphml empty_multigraph))).2.1,
       (download_graphs_go env fn (i + 1) rest
          (fsWrite fs (graphml_path fn i)
            (FileData.graphml empty_multigraph))).2.2) ∧
    fsRead (fsWrite fs (graphml_path fn i) (FileData.graphml empty_multigraph))
      (graphml_path fn i) = some (FileData.graphml empty_multigraph) := by
  refine ⟨?_, fsRead_fsWrite_same _ _ _⟩
  simp [download_graphs_go, hfile, hq]

/-- C6 witness: a one-tile run against an environment whose query raises a
ValueError on every tile. -/
theorem C6_empty_tile_witness :
    download_graphs_go env6 "g" 0 [5] [] =
      ((download_graphs_go env6 "g" 1 []
          (fsWrite [] (graphml_path "g" 0)
            (FileData.graphml empty_multigraph))).1,
       Event.osmQuery highway_filter true false
         :: Event.saveGraphml (graphml_path "g" 0) empty_multigraph
         :: (download_graphs_go env6 "g" 1 []
            (fsWrite [] (graphml_path "g" 0)
              (FileData.graphml empty_multigraph))).2.1,
       (download_graphs_go env6 "g" 1 []
          (fsWrite [] (graphml_path "g" 0)
            (FileData.graphml empty_multigraph))).2.2) ∧
    fsRead (fsWrite [] (graphml_path "g" 0)
        (FileData.graphml empty_multigraph))
      (graphml_path "g" 0) = some (FileData.graphml empty_multigraph) :=
  C6_empty_tile env6 "g" 0 5 [] [] rfl rfl

/-- C10: resolution precedes the existence check — an entry whose authority
name has no table entry makes `process_entry` propagate NotFound with no
effects performed, and the batch halts there, whatever the analysis
engine's existence check would have reported for that entry. -/
theorem C10_notfound_halts (env : Env) (fnd fno authority region : String)
    (fs : FS) (rest : List (String × String))
    (h : env.authority_table.lookup (py_split_head authority ", ") = none) :
    process_entry env fnd fno authority region fs =
      (fs, [], Except.error (Err.notFound (py_split_head authority ", "))) ∧
    batch_prow_analyse_authorities env ((authority, region) :: rest) fnd fno
        fs =
      (fs, [], Except.error (Err.notFound (py_split_head authority ", "))) := by
  have hp : process_entry env fnd fno authority region fs =
      (fs, [], Except.error (Err.notFound (py_split_head authority ", "))) := by
    simp [process_entry, reverse_search, h]
  exact ⟨hp, by simp [batch_prow_analyse_authorities, hp]⟩

/-- C10 witness: an empty authority table halts the batch at a single entry
even though the analysis engine reports existing output for every prefix. -/
theorem C10_notfound_halts_witness :
    env10.check_analysis_exists ("output" ++ "/" ++ "XX") = true ∧
    process_entry env10 "data" "output" "Derbyshire, England" "derbyshire" [] =
      ([], [], Except.error (Err.notFound "Derbyshire")) ∧
    batch_prow_analyse_authorities env10
        [("Derbyshire, England", "derbyshire")] "data" "output" [] =
      ([], [], Except.error (Err.notFound "Derbyshire")) := by
  have h := C10_notfound_halts env10 "data" "output" "Derbyshire, England"
    "derbyshire" [] [] rfl
  exact ⟨rfl, h.1, h.2⟩

/-- A `download_row_data` call that does not take the skip branch issues
exactly one HTTP request. -/
theorem download_row_data_one_httpGet (env : Env) (code fn : String)
    (fs : FS) (h : isfile fs (fn ++ ".csv") = false) :
    ((download_row_data env code fn fs).2.1).countP Event.isHttpGet = 1 := by
  rcases hg : env.requests_get rowmaps_url [("l", code), ("w", "no")]
      row_headers with e | resp
  · simp [download_row_data, h, hg, Event.isHttpGet]
  · simp [download_row_data, h, hg, List.countP_append, after_get_no_httpGet,
      Event.isHttpGet]

/-- C5: once the authority name resolves, the analysis engine's existence
check alone decides the entry's fate: if it reports existing output, the
entry performs nothing but the header print and the check itself — no
acquisition step, no analysis call, no filesystem change — and the batch
moves on to the remaining entries; if it reports no output, the entry
proceeds straight into the RoW download step. -/
theorem C5_skip_on_existing (env : Env)
    (fnd fno authority region code : String) (fs : FS)
    (rest : List (String × String))
    (hres : env.authority_table.lookup (py_split_head authority ", ") =
      some code) :
    (env.check_analysis_exists (fno ++ "/" ++ code) = true →
      process_entry env fnd fno authority region fs =
        (fs,
         [Event.print ("Analysis for authority '" ++ authority ++
            "' code '" ++ code ++ "' in region '" ++ region ++
            "'. Output to " ++ (fno ++ "/" ++ code)),
          Event.checkExistsCall (fno ++ "/" ++ code) true],
         Except.ok ()) ∧
      batch_prow_analyse_authorities env ((authority, region) :: rest) fnd
          fno fs =
        ((batch_prow_analyse_authorities env rest fnd fno fs).1,
         [Event.print ("Analysis for authority '" ++ authority ++
            "' code '" ++ code ++ "' in region '" ++ region ++
            "'. Output to " ++ (fno ++ "/" ++ code)),
          Event.checkExistsCall (fno ++ "/" ++ code) true] ++
           (batch_prow_analyse_authorities env rest fnd fno fs).2.1,
         (batch_prow_analyse_authorities env rest fnd fno fs).2.2)) ∧
    (env.check_analysis_exists (fno ++ "/" ++ code) = false →
      ∃ tail, (process_entry env fnd fno authority region fs).2.1 =
        Event.print ("Analysis for authority '" ++ authority ++
          "' code '" ++ code ++ "' in region '" ++ region ++
          "'. Output to " ++ (fno ++ "/" ++ code)) ::
        Event.checkExistsCall (fno ++ "/" ++ code) false ::
        Event.print "1. Download RoW data" ::
        ((download_row_data env code (fnd ++ "/row/" ++ code) fs).2.1 ++
          tail)) := by
  constructor
  · intro h
    have hp : process_entry env fnd fno authority region fs =
        (fs,
         [Event.print ("Analysis for authority '" ++ authority ++
            "' code '" ++ code ++ "' in region '" ++ region ++
            "'. Output to " ++ (fno ++ "/" ++ code)),
          Event.checkExistsCall (fno ++ "/" ++ code) true],
         Except.ok ()) := by
      simp [process_entry, reverse_search, hres, h]
    exact ⟨hp, by simp [batch_prow_analyse_authorities, hp]⟩
  · intro h
    rcases hr : download_row_data env code (fnd ++ "/row/" ++ code) fs with
      ⟨fs1, tr1, r1⟩
    rcases r1 with e | u
    · exact ⟨[], by simp [process_entry, reverse_search, hres, h, hr]⟩
    · rcases hp2 : download_public_gps_data env region
          (fnd ++ "/public/" ++ region) fs1 with ⟨fs2, tr2, r2⟩
      rcases r2 with e | u2
      · exact ⟨Event.print "2. Download public GPS data" :: tr2,
          by simp [process_entry, reverse_search, hres, h, hr, hp2]⟩
      · rcases hb : get_graph_boundary env authority with ⟨tr3, r3⟩
        rcases r3 with e | gb
        · exact ⟨Event.print "2. Download public GPS data" :: tr2 ++
            Event.print "3. Get graph boundaries" :: tr3,
            by simp [process_entry, reverse_search, hres, h, hr, hp2, hb]⟩
        · rcases hg : download_graphs env gb (fnd ++ "/osmnx/" ++ code) fs2
              with ⟨fs4, tr4, r4⟩
          rcases r4 with e | u4
          · exact ⟨Event.print "2. Download public GPS data" :: tr2 ++
              Event.print "3. Get graph boundaries" :: tr3 ++
              Event.print "4. Download graphs" :: tr4,
              by simp [process_entry, reverse_search, hres, h, hr, hp2, hb,
                hg]⟩
          · exact ⟨Event.print "2. Download public GPS data" :: tr2 ++
              Event.print "3. Get graph boundaries" :: tr3 ++
              Event.print "4. Download graphs" :: tr4 ++
              [Event.print "5. Perform analysis",
               Event.analyseCall (fnd ++ "/row/" ++ code)
                 (fnd ++ "/public/" ++ region) (fnd ++ "/osmnx/" ++ code)
                 (fno ++ "/" ++ code)],
              by simp [process_entry, reverse_search, hres, h, hr, hp2, hb,
                hg]⟩

/-- C5 witness: a batch entry against an engine that reports existing
output is reduced to the header print and the existence check. -/
theorem C5_skip_on_existing_witness :
    process_entry env5 "data" "output" "Derbyshire, England" "derbyshire" [] =
      ([],
       [Event.print ("Analysis for authority '" ++ "Derbyshire, England" ++
          "' code '" ++ "DY" ++ "' in region '" ++ "derbyshire" ++
          "'. Output to " ++ ("output" ++ "/" ++ "DY")),
        Event.checkExistsCall ("output" ++ "/" ++ "DY") true],
       Except.ok ()) ∧
    batch_prow_analyse_authorities env5
        [("Derbyshire, England", "derbyshire")] "data" "output" [] =
      ((batch_prow_analyse_authorities env5 [] "data" "output" []).1,
       [Event.print ("Analysis for authority '" ++ "Derbyshire, England" ++
          "' code '" ++ "DY" ++ "' in region '" ++ "derbyshire" ++
          "'. Output to " ++ ("output" ++ "/" ++ "DY")),
        Event.checkExistsCall ("output" ++ "/" ++ "DY") true] ++
         (batch_prow_analyse_authorities env5 [] "data" "output" []).2.1,
       (batch_prow_analyse_authorities env5 [] "data" "output" []).2.2) :=
  (C5_skip_on_existing env5 "data" "output" "Derbyshire, England"
    "derbyshire" "DY" [] [] rfl).1 rfl

/-- C9: in `download_row_data` the `.csv` idempotency marker appears only
after the HTTP download, the GPX parse and the interpolation have all
succeeded.  On a connection failure nothing is written; on a parse or
interpolation failure the raw `.gpx` is already on disk but no `.csv` is
created, so a repeated invocation against the resulting filesystem does not
take the skip branch and issues a fresh HTTP request; only the fully
successful path writes the `.csv`. -/
theorem C9_csv_marks_success (env : Env) (code fn : String) (fs : FS)
    (h0 : isfile fs (fn ++ ".csv") = false) :
    (env.requests_get rowmaps_url [("l", code), ("w", "no")] row_headers =
        Except.error () →
      download_row_data env code fn fs =
        (fs,
         [Event.print ("Downloading to " ++ (fn ++ ".csv") ++ "..."),
          Event.print ("Downloading RoW data for " ++ code),
          Event.httpGet rowmaps_url [("l", code), ("w", "no")] row_headers],
         Except.error Err.netFailure)) ∧
    (∀ resp : HttpResponse,
      env.requests_get rowmaps_url [("l", code), ("w", "no")] row_headers =
        Except.ok resp →
      env.gpx_parse resp.content = Except.error () →
      (download_row_data env code fn fs).1 =
        fsWrite fs (fn ++ ".gpx") (FileData.bytes resp.content) ∧
      (download_row_data env code fn fs).2.2 = Except.error Err.invalidGpx ∧
      isfile (download_row_data env code fn fs).1 (fn ++ ".csv") = false ∧
      ((download_row_data env code fn
          (download_row_data env code fn fs).1).2.1).countP
        Event.isHttpGet = 1) ∧
    (∀ (resp : HttpResponse) (rows : List GpxRow),
      env.requests_get rowmaps_url [("l", code), ("w", "no")] row_headers =
        Except.ok resp →
      env.gpx_parse resp.content = Except.ok rows →
      env.batch_geo_interpolate_df rows env.interpolation_dist_row_gps
        false = Except.error () →
      (download_row_data env code fn fs).1 =
        fsWrite fs (fn ++ ".gpx") (FileData.bytes resp.content) ∧
      (download_row_data env code fn fs).2.2 =
        Except.error Err.interpFailure ∧
      isfile (download_row_data env code fn fs).1 (fn ++ ".csv") = false) ∧
    (∀ (resp : HttpResponse) (rows rows' : List GpxRow),
      env.requests_get rowmaps_url [("l", code), ("w", "no")] row_headers =
        Except.ok resp →
      env.gpx_parse resp.content = Except.ok rows →
      env.batch_geo_interpolate_df rows env.interpolation_dist_row_gps
        false = Except.ok rows' →
      (download_row_data env code fn fs).1 =
        fsWrite (fsWrite fs (fn ++ ".gpx") (FileData.bytes resp.content))
          (fn ++ ".csv") (FileData.gpxTable rows') ∧
      (download_row_data env code fn fs).2.2 = Except.ok () ∧
      isfile (download_row_data env code fn fs).1 (fn ++ ".csv") = true) := by
  refine ⟨?_, ?_, ?_, ?_⟩
  · intro hg
    simp [download_row_data, h0, hg]
  · intro resp hg hp
    have hfs : (download_row_data env code fn fs).1 =
        fsWrite fs (fn ++ ".gpx") (FileData.bytes resp.content) := by
      simp [download_row_data, download_row_data_after_get, h0, hg, hp,
        fsRead_fsWrite_same]
    refine ⟨hfs, ?_, ?_, ?_⟩
    · simp [download_row_data, download_row_data_after_get, h0, hg, hp,
        fsRead_fsWrite_same]
    · rw [hfs, isfile_fsWrite_ne _ _ _ _ (csv_ne_gpx fn)]
      exact h0
    · apply download_row_data_one_httpGet
      rw [hfs, isfile_fsWrite_ne _ _ _ _ (csv_ne_gpx fn)]
      exact h0
  · intro resp rows hg hp hi
    have hfs : (download_row_data env code fn fs).1 =
        fsWrite fs (fn ++ ".gpx") (FileData.bytes resp.content) := by
      simp [download_row_data, download_row_data_after_get, h0, hg, hp, hi,
        fsRead_fsWrite_same]
    refine ⟨hfs, ?_, ?_⟩
    · simp [download_row_data, download_row_data_after_get, h0, hg, hp, hi,
        fsRead_fsWrite_same]
    · rw [hfs, isfile_fsWrite_ne _ _ _ _ (csv_ne_gpx fn)]
      exact h0
  · intro resp rows rows' hg hp hi
    have hfs : (download_row_data env code fn fs).1 =
        fsWrite (fsWrite fs (fn ++ ".gpx") (FileData.bytes resp.content))
          (fn ++ ".csv") (FileData.gpxTable rows') := by
      simp [download_row_data, download_row_data_after_get, h0, hg, hp, hi,
        fsRead_fsWrite_same]
    refine ⟨hfs, ?_, ?_⟩
    · simp [download_row_data, download_row_data_after_get, h0, hg, hp, hi,
        fsRead_fsWrite_same]
    · rw [hfs]
      simp [isfile, fsRead_fsWrite_same]

/-- C9 witness: with a converter that rejects every input, the `.gpx` is on
disk, no `.csv` exists, and the repeated invocation issues a fresh HTTP
request. -/
theorem C9_csv_marks_success_witness :
    (download_row_data env9 "DY" "p" []).1 =
      fsWrite [] ("p" ++ ".gpx") (FileData.bytes "gpx") ∧
    (download_row_data env9 "DY" "p" []).2.2 = Except.error Err.invalidGpx ∧
    isfile (download_row_data env9 "DY" "p" []).1 ("p" ++ ".csv") = false ∧
    ((download_row_data env9 "DY" "p"
        (download_row_data env9 "DY" "p" []).1).2.1).countP
      Event.isHttpGet = 1 :=
  (C9_csv_marks_success env9 "DY" "p" [] rfl).2.1
    { status := 200, content := "gpx" } rfl rfl

/-- The conversion loop's output, frame by frame: one frame per enumerated
file, in order, each the zero-filtered three-column projection of that
file's parsed records with track identifiers offset by the file's
enumeration index. -/
theorem convert_frames_spec (env : Env) :
    ∀ (files : List (String × String)) (k : Nat)
      (frames : List (List CsvRow)),
    convert_frames env k files = Except.ok frames →
    frames.length = files.length ∧
    ∀ j, j < files.length →
      ∃ rows, env.gpx_parse (files.getD j ("", "")).2 = Except.ok rows ∧
        frames.getD j [] = zero_filter ((rows.map (fun r =>
          { r with trackid := r.trackid + Int.ofNat (k + j) })).map
          select_columns)
  | [], k, frames, h => by
    simp [convert_frames] at h
    subst h
    exact ⟨rfl, fun j hj => absurd hj (by simp)⟩
  | (p, c) :: rest, k, frames, h => by
    simp only [convert_frames] at h
    rcases hd : gpx_to_dataframe env c (Int.ofNat k) with e | df
    · rw [hd] at h
      simp at h
    · rw [hd] at h
      rcases hrest : convert_frames env (k + 1) rest with e | fr
      · rw [hrest] at h
        simp at h
      · rw [hrest] at h
        simp only [Except.ok.injEq] at h
        obtain ⟨hlen, hind⟩ := convert_frames_spec env rest (k + 1) fr hrest
        subst h
        constructor
        · simp [hlen]
        · intro j hj
          match j with
          | 0 =>
            simp only [gpx_to_dataframe] at hd
            rcases hp : env.gpx_parse c with e0 | rows0
            · rw [hp] at hd
              simp at hd
            · rw [hp] at hd
              simp only [Except.ok.injEq] at hd
              subst hd
              exact ⟨rows0, by simpa using hp, by simp⟩
          | j' + 1 =>
            have hj' : j' < rest.length := by simpa using hj
            obtain ⟨rows, hr1, hr2⟩ := hind j' hj'
            refine ⟨rows, by simpa using hr1, ?_⟩
            have hk : k + 1 + j' = k + (j' + 1) := by omega
            simpa [hk] using hr2

/-- C8: for every caller-supplied prefix `fn` (with no cached CSV), the
public-GPS download converts exactly the GPX files enumerated under the
fixed directory `data/public/gpx-planet-2013-04-09` — `public_gps_table`
does not depend on `fn` — offsets each file's track identifiers by the
file's enumeration index, concatenates the frames in enumeration order
(within-file order preserved), and writes the result to `fn + ".csv"`. -/
theorem C8_fixed_extraction_path (env : Env) (region fn : String) (fs : FS)
    (t : List CsvRow)
    (h0 : isfile fs (fn ++ ".csv") = false)
    (ht : public_gps_table env = Except.ok t) :
    download_public_gps_data env region fn fs =
      (fsWrite (fsRemove (fsWrite fs (fn ++ ".tar.xz")
          (FileData.archiveFile region)) (fn ++ ".tar.xz")) (fn ++ ".csv")
        (FileData.csvTable t),
       [Event.print ("Downloading to " ++ (fn ++ ".csv") ++ "..."),
        Event.echo "Starting download...",
        Event.curl (public_base_url ++ region ++ ".tar.xz") (fn ++ ".tar.xz"),
        Event.echo "Unzipping...",
        Event.tarExtract (fn ++ ".tar.xz") (dirname fn),
        Event.echo "Deleting archive",
        Event.rmFile (fn ++ ".tar.xz"),
        Event.print "Converting...",
        Event.writeFile (fn ++ ".csv"),
        Event.print "Done"],
       Except.ok ()) ∧
    ∃ frames,
      convert_frames env 0 (env.rglob_gpx public_gpx_dir) =
        Except.ok frames ∧
      t = frames.flatten ∧
      frames.length = (env.rglob_gpx public_gpx_dir).length ∧
      ∀ j, j < (env.rglob_gpx public_gpx_dir).length →
        ∃ rows, env.gpx_parse
            ((env.rglob_gpx public_gpx_dir).getD j ("", "")).2 =
          Except.ok rows ∧
          frames.getD j [] = zero_filter ((rows.map (fun r =>
            { r with trackid := r.trackid + Int.ofNat j })).map
            select_columns) := by
  refine ⟨by simp [download_public_gps_data, h0, ht], ?_⟩
  rcases hcf : convert_frames env 0 (env.rglob_gpx public_gpx_dir) with
    e | frames
  · simp [public_gps_table, hcf] at ht
  · rcases frames with _ | ⟨f0, fr⟩
    · simp [public_gps_table, hcf] at ht
    · simp [public_gps_table, hcf] at ht
      obtain ⟨hlen, hind⟩ := convert_frames_spec env
        (env.rglob_gpx public_gpx_dir) 0 (f0 :: fr) hcf
      refine ⟨f0 :: fr, rfl, by simpa using ht.symm, hlen, ?_⟩
      intro j hj
      obtain ⟨rows, h1, h2⟩ := hind j hj
      exact ⟨rows, h1, by simpa using h2⟩

/-- C8 witness: the statement at a concrete environment with one GPX file
holding one record. -/
theorem C8_fixed_extraction_path_witness :
    download_public_gps_data env0 "derbyshire" "p" [] =
      (fsWrite (fsRemove (fsWrite [] ("p" ++ ".tar.xz")
          (FileData.archiveFile "derbyshire")) ("p" ++ ".tar.xz"))
        ("p" ++ ".csv")
        (FileData.csvTable [{ latitude := 1, longitude := 2, trackid := 0 }]),
       [Event.print ("Downloading to " ++ ("p" ++ ".csv") ++ "..."),
        Event.echo "Starting download...",
        Event.curl (public_base_url ++ "derbyshire" ++ ".tar.xz")
          ("p" ++ ".tar.xz"),
        Event.echo "Unzipping...",
        Event.tarExtract ("p" ++ ".tar.xz") (dirname "p"),
        Event.echo "Deleting archive",
        Event.rmFile ("p" ++ ".tar.xz"),
        Event.print "Converting...",
        Event.writeFile ("p" ++ ".csv"),
        Event.print "Done"],
       Except.ok ()) ∧
    ∃ frames,
      convert_frames env0 0 (env0.rglob_gpx public_gpx_dir) =
        Except.ok frames ∧
      ([{ latitude := 1, longitude := 2, trackid := 0 }] : List CsvRow) =
        frames.flatten ∧
      frames.length = (env0.rglob_gpx public_gpx_dir).length ∧
      ∀ j, j < (env0.rglob_gpx public_gpx_dir).length →
        ∃ rows, env0.gpx_parse
            ((env0.rglob_gpx public_gpx_dir).getD j ("", "")).2 =
          Except.ok rows ∧
          frames.getD j [] = zero_filter ((rows.map (fun r =>
            { r with trackid := r.trackid + Int.ofNat j })).map
            select_columns) :=
  C8_fixed_extraction_path env0 "derbyshire" "p" []
    [{ latitude := 1, longitude := 2, trackid := 0 }] rfl rfl

/-- C7: a non-skipped entry whose stages all succeed executes exactly RoW
download, public GPS download, boundary computation, graph download and
analysis, in that order — its trace is precisely the concatenation of the
stage traces with the stage banners between them — and the batch processes
its entries strictly in input list order, each entry's trace preceding the
remaining entries' traces. -/
theorem C7_fixed_order (env : Env)
    (fnd fno authority region code : String) (fs fs1 fs2 fs4 : FS)
    (trRow trPub trBnd trGr : List Event) (gb : List Geom)
    (rest : List (String × String))
    (hres : env.authority_table.lookup (py_split_head authority ", ") =
      some code)
    (hck : env.check_analysis_exists (fno ++ "/" ++ code) = false)
    (hrow : download_row_data env code (fnd ++ "/row/" ++ code) fs =
      (fs1, trRow, Except.ok ()))
    (hpub : download_public_gps_data env region (fnd ++ "/public/" ++ region)
      fs1 = (fs2, trPub, Except.ok ()))
    (hbnd : get_graph_boundary env authority = (trBnd, Except.ok gb))
    (hgr : download_graphs env gb (fnd ++ "/osmnx/" ++ code) fs2 =
      (fs4, trGr, Except.ok ())) :
    process_entry env fnd fno authority region fs =
      (fs4,
       Event.print ("Analysis for authority '" ++ authority ++ "' code '" ++
         code ++ "' in region '" ++ region ++ "'. Output to " ++
         (fno ++ "/" ++ code)) ::
       Event.checkExistsCall (fno ++ "/" ++ code) false ::
       Event.print "1. Download RoW data" :: trRow ++
       Event.print "2. Download public GPS data" :: trPub ++
       Event.print "3. Get graph boundaries" :: trBnd ++
       Event.print "4. Download graphs" :: trGr ++
       [Event.print "5. Perform analysis",
        Event.analyseCall (fnd ++ "/row/" ++ code)
          (fnd ++ "/public/" ++ region) (fnd ++ "/osmnx/" ++ code)
          (fno ++ "/" ++ code)],
       Except.ok ()) ∧
    batch_prow_analyse_authorities env ((authority, region) :: rest) fnd fno
        fs =
      ((batch_prow_analyse_authorities env rest fnd fno fs4).1,
       (Event.print ("Analysis for authority '" ++ authority ++ "' code '" ++
         code ++ "' in region '" ++ region ++ "'. Output to " ++
         (fno ++ "/" ++ code)) ::
        Event.checkExistsCall (fno ++ "/" ++ code) false ::
        Event.print "1. Download RoW data" :: trRow ++
        Event.print "2. Download public GPS data" :: trPub ++
        Event.print "3. Get graph boundaries" :: trBnd ++
        Event.print "4. Download graphs" :: trGr ++
        [Event.print "5. Perform analysis",
         Event.analyseCall (fnd ++ "/row/" ++ code)
           (fnd ++ "/public/" ++ region) (fnd ++ "/osmnx/" ++ code)
           (fno ++ "/" ++ code)]) ++
         (batch_prow_analyse_authorities env rest fnd fno fs4).2.1,
       (batch_prow_analyse_authorities env rest fnd fno fs4).2.2) := by
  have hp : process_entry env fnd fno authority region fs =
      (fs4,
       Event.print ("Analysis for authority '" ++ authority ++ "' code '" ++
         code ++ "' in region '" ++ region ++ "'. Output to " ++
         (fno ++ "/" ++ code)) ::
       Event.checkExistsCall (fno ++ "/" ++ code) false ::
       Event.print "1. Download RoW data" :: trRow ++
       Event.print "2. Download public GPS data" :: trPub ++
       Event.print "3. Get graph boundaries" :: trBnd ++
       Event.print "4. Download graphs" :: trGr ++
       [Event.print "5. Perform analysis",
        Event.analyseCall (fnd ++ "/row/" ++ code)
          (fnd ++ "/public/" ++ region) (fnd ++ "/osmnx/" ++ code)
          (fno ++ "/" ++ code)],
       Except.ok ()) := by
    simp [process_entry, reverse_search, hres, hck, hrow, hpub, hbnd, hgr]
  exact ⟨hp, by simp [batch_prow_analyse_authorities, hp]⟩

/-- C7 witness: a full one-entry batch against the all-success environment
runs to completion. -/
theorem C7_fixed_order_witness :
    (process_entry env0 "data" "output" "Derbyshire, England" "derbyshire"
      []).2.2 = Except.ok () ∧
    (batch_prow_analyse_authorities env0
      [("Derbyshire, England", "derbyshire")] "data" "output" []).2.2 =
      Except.ok () := by
  have h := C7_fixed_order env0 "data" "output" "Derbyshire, England"
    "derbyshire" "DY" []
    (download_row_data env0 "DY" ("data" ++ "/row/" ++ "DY") []).1
    (download_public_gps_data env0 "derbyshire"
      ("data" ++ "/public/" ++ "derbyshire")
      (download_row_data env0 "DY" ("data" ++ "/row/" ++ "DY") []).1).1
    (download_graphs env0 [7] ("data" ++ "/osmnx/" ++ "DY")
      (download_public_gps_data env0 "derbyshire"
        ("data" ++ "/public/" ++ "derbyshire")
        (download_row_data env0 "DY" ("data" ++ "/row/" ++ "DY") []).1).1).1
    (download_row_data env0 "DY" ("data" ++ "/row/" ++ "DY") []).2.1
    (download_public_gps_data env0 "derbyshire"
      ("data" ++ "/public/" ++ "derbyshire")
      (download_row_data env0 "DY" ("data" ++ "/row/" ++ "DY") []).1).2.1
    [Event.geocodeCall ["Derbyshire, England"] 10]
    (download_graphs env0 [7] ("data" ++ "/osmnx/" ++ "DY")
      (download_public_gps_data env0 "derbyshire"
        ("data" ++ "/public/" ++ "derbyshire")
        (download_row_data env0 "DY" ("data" ++ "/row/" ++ "DY") []).1).1).2.1
    [7] [] rfl rfl rfl rfl rfl rfl
  exact ⟨by rw [h.1], by rw [h.2]; rfl⟩
